import Mathlib

/-!
Shallow embedding of `mbw-helpers` (DialogBuilder.py, OperatorBuilder.py).

Python runtime values that these builders manipulate are modelled by `Val`:
integers, strings, lists, tuples and `None`.  Python exceptions are modelled
by `Except PyErr`.  Each Lean definition is a direct translation of the
correspondingly named Python method; Python's default arguments are passed
explicitly at every call site (`append()` becomes `append (Val.list [])`).
-/

/-- A Python value as used by the builders: `None`, an int, a string,
a list, or a tuple. -/
inductive Val where
  | none : Val
  | int : Int → Val
  | str : String → Val
  | list : List Val → Val
  | tup : List Val → Val

/-- The Python exceptions the builders can raise. -/
inductive PyErr where
  | valueError : String → PyErr
  | typeError : PyErr
  | attributeError : String → PyErr
  | indexError : PyErr
deriving DecidableEq

/-- `type(v) is list` in Python. -/
def Val.isList : Val → Bool
  | .list _ => true
  | _ => false

/-- `type(v) is tuple` in Python. -/
def Val.isTup : Val → Bool
  | .tup _ => true
  | _ => false

/-- The Python comparison `v == None`. -/
def Val.isNone : Val → Bool
  | .none => true
  | _ => false

/-- The Python comparison `v == []` (true exactly for an empty list). -/
def Val.isEmptyList : Val → Bool
  | .list l => l.isEmpty
  | _ => false

/-- The Python comparison `v == ""` (true exactly for the empty string). -/
def Val.isEmptyStr : Val → Bool
  | .str s => s.isEmpty
  | _ => false

/-- The state of one `DialogBuilder` object (single-instance semantics:
the class-level fields of `DialogBuilder.py` lines 22-30 read as the fields
of one fresh object; the cross-instance sharing they cause is modelled
separately below). -/
structure DialogBuilder where
  dialogs : List Val
  partner_bitwise : Val
  pre_state_string : Val
  pre_state_reply_string : Val
  condition_tuples : Val
  dialog_string : Val
  post_state_string : Val
  consequence_tuples : Val

/-- The initial field values declared at lines 23-30 of `DialogBuilder.py`:
`dialogs = []`, `partner_bitwise = None`, `pre_state_string = None`,
`pre_state_reply_string = None`, `condition_tuples = []`,
`dialog_string = ""`, `post_state_string = None`, `consequence_tuples = []`. -/
def DialogBuilder.init : DialogBuilder where
  dialogs := []
  partner_bitwise := Val.none
  pre_state_string := Val.none
  pre_state_reply_string := Val.none
  condition_tuples := Val.list []
  dialog_string := Val.str ""
  post_state_string := Val.none
  consequence_tuples := Val.list []

/-- `DialogBuilder.append(self, dialog = [])` (lines 32-80).  The validation
checks run unconditionally; only the construction of the 6-element entry is
skipped when an explicit `dialog` argument is given.  Note the fourth check
compares `dialog_string` with `None` even though its unset sentinel is `""`. -/
def DialogBuilder.append (st : DialogBuilder) (dialog : Val) :
    Except PyErr DialogBuilder :=
  if !dialog.isEmptyList && !dialog.isList then
    Except.error (PyErr.valueError "dialog must be a list")
  else if st.partner_bitwise.isNone then
    Except.error (PyErr.valueError "partner must be set")
  else if st.pre_state_string.isNone then
    Except.error (PyErr.valueError "pre_state must be set")
  else if st.post_state_string.isNone then
    Except.error (PyErr.valueError "post_state must be set")
  else if st.dialog_string.isNone then
    Except.error (PyErr.valueError "dialog must be set")
  else
    let d :=
      if dialog.isEmptyList then
        Val.list [st.partner_bitwise, st.pre_state_string, st.condition_tuples,
          st.dialog_string, st.post_state_string, st.consequence_tuples]
      else dialog
    Except.ok { st with
      partner_bitwise := Val.none
      pre_state_string := Val.none
      condition_tuples := Val.list []
      dialog_string := Val.str ""
      post_state_string := Val.none
      consequence_tuples := Val.list []
      dialogs := st.dialogs ++ [d] }

/-- `DialogBuilder.done(self)` (lines 94-109): when `dialogs` is empty it
first calls the no-argument `append`, then returns the accumulated list and
replaces it by a fresh empty list. -/
def DialogBuilder.done (st : DialogBuilder) :
    Except PyErr (List Val × DialogBuilder) :=
  if st.dialogs.isEmpty then
    match st.append (Val.list []) with
    | Except.error e => Except.error e
    | Except.ok st1 => Except.ok (st1.dialogs, { st1 with dialogs := [] })
  else
    Except.ok (st.dialogs, { st with dialogs := [] })

/-- Python's `operator.or_` applied to two builder values; defined on
integers (bitwise or), a `TypeError` otherwise. -/
def pyOr (a b : Val) : Except PyErr Val :=
  match a, b with
  | Val.int m, Val.int n => Except.ok (Val.int (Int.lor m n))
  | _, _ => Except.error PyErr.typeError

/-- `functools.reduce(or_, l)`: `TypeError` on an empty list, otherwise a
left fold of `or_` starting from the first element. -/
def reduceOr : List Val → Except PyErr Val
  | [] => Except.error PyErr.typeError
  | v :: vs => vs.foldlM pyOr v

/-- `DialogBuilder.partner(self, partner)` (lines 111-129): first stores the
argument, then, when it is a list, replaces the stored value by the
`reduce(or_, ...)` of its elements. -/
def DialogBuilder.partner (st : DialogBuilder) (p : Val) :
    Except PyErr DialogBuilder :=
  match p with
  | Val.list l =>
    match reduceOr l with
    | Except.error e => Except.error e
    | Except.ok m => Except.ok { st with partner_bitwise := m }
  | _ => Except.ok { st with partner_bitwise := p }

/-- `DialogBuilder.pre_state(self, prestate, on_reply = False)` (lines
131-149). -/
def DialogBuilder.pre_state (st : DialogBuilder) (prestate : Val)
    (on_reply : Bool) : DialogBuilder :=
  if on_reply then
    { st with pre_state_string := prestate, pre_state_reply_string := prestate }
  else
    { st with pre_state_string := prestate }

/-- `DialogBuilder.dialog(self, text)` (lines 193-207). -/
def DialogBuilder.dialog (st : DialogBuilder) (text : Val) : DialogBuilder :=
  { st with dialog_string := text }

/-- `DialogBuilder.post_state(self, poststate = "close_window")` (lines
209-223); the default argument is passed explicitly at call sites. -/
def DialogBuilder.post_state (st : DialogBuilder) (poststate : Val) :
    DialogBuilder :=
  { st with post_state_string := poststate }

/-- `DialogBuilder.condition(self, condition)` (lines 151-173). -/
def DialogBuilder.condition (st : DialogBuilder) (c : Val) :
    Except PyErr DialogBuilder :=
  if !c.isList then
    Except.error (PyErr.valueError "condition must be a list")
  else
    Except.ok { st with condition_tuples := c }

/-- `DialogBuilder.consequence(self, consequence)` (lines 225-247): stores
the list and immediately calls the no-argument `append`. -/
def DialogBuilder.consequence (st : DialogBuilder) (c : Val) :
    Except PyErr DialogBuilder :=
  if !c.isList then
    Except.error (PyErr.valueError "consequence must be a list")
  else
    DialogBuilder.append { st with consequence_tuples := c } (Val.list [])

/-- Python sequence indexing `v[i]` for a non-negative index, as used by
`self.dialogs[-1][4]`: defined on lists and tuples, `IndexError` when out of
range, `TypeError` on other values. -/
def pyIndex (v : Val) (i : Nat) : Except PyErr Val :=
  match v with
  | Val.list l =>
    match l.get? i with
    | some x => Except.ok x
    | Option.none => Except.error PyErr.indexError
  | Val.tup l =>
    match l.get? i with
    | some x => Except.ok x
    | Option.none => Except.error PyErr.indexError
  | _ => Except.error PyErr.typeError

/-- `DialogBuilder.replies_start(self, prestate = "")` (lines 275-294):
records `prestate` as the reply base state; when `prestate` is the empty
string it instead reads `self.dialogs[-1][4]`, which raises `IndexError` on
an empty `dialogs` list. -/
def DialogBuilder.replies_start (st : DialogBuilder) (prestate : Val) :
    Except PyErr DialogBuilder :=
  let st1 := st.pre_state prestate true
  if prestate.isEmptyStr then
    match st1.dialogs.getLast? with
    | Option.none => Except.error PyErr.indexError
    | some last =>
      match pyIndex last 4 with
      | Except.error e => Except.error e
      | Except.ok v => Except.ok (st1.pre_state v true)
  else
    Except.ok st1

/-- Modelled from the spec: `anyone` is a speaker-mask identifier imported
from the external module-system headers (`_imports`, not part of this
repository); its numeric value is external and irrelevant to the theorems
below. -/
def anyone : Int := 0

/-- Modelled from the spec: `plyr` is the player speaker-mask identifier
imported from the external module-system headers (`_imports`, not part of
this repository); its numeric value is external and irrelevant to the
theorems below. -/
def plyr : Int := 1

/-- `DialogBuilder.reply(self, text, poststate = "close_window",
append = True)` (lines 296-319).  The source first calls
`self.partner([anyone, plyr])` and `self.pre_state(self.pre_state_reply_string)`,
then executes `self.talk(text)` (line 313); `DialogBuilder` defines no
attribute `talk` anywhere, so Python raises `AttributeError` at that point,
before `post_state` or `append` can run. -/
def DialogBuilder.reply (st : DialogBuilder) (text : Val) (poststate : Val)
    (app : Bool) : Except PyErr DialogBuilder :=
  match st.partner (Val.list [Val.int anyone, Val.int plyr]) with
  | Except.error e => Except.error e
  | Except.ok st1 =>
    let st2 := st1.pre_state st1.pre_state_reply_string false
    let _ := st2
    let _ := (text, poststate, app)
    Except.error (PyErr.attributeError "talk")

/-!
Cross-instance semantics of `DialogBuilder`'s class-level fields.

In `DialogBuilder.py` every field (lines 23-30) is declared at class scope.
In Python an attribute read on an instance falls back to the class attribute
until the instance assigns its own; `self.x = v` always creates an instance
attribute; and `self.dialogs.append(d)` mutates in place whichever list the
read resolved to (the shared class list, for an instance that never shadowed
`dialogs`).  `DialogClass` holds the class attribute `dialogs` (the only
attribute ever mutated in place); `DialogInstance` holds the per-instance
shadows, `Option.none` meaning "no instance attribute yet".  The other class
attributes are only ever read (never reassigned at class scope and never
mutated in place), so reads of them fall back to the fixed initial values of
lines 24-30.
-/

/-- The class-scope `dialogs` list of `DialogBuilder` (line 23), shared by
every instance that has not shadowed it. -/
structure DialogClass where
  dialogs : List Val

/-- The instance-attribute dictionary of one `DialogBuilder` object, one
optional shadow per class field. -/
structure DialogInstance where
  dialogs_sh : Option (List Val)
  partner_sh : Option Val
  pre_state_sh : Option Val
  pre_state_reply_sh : Option Val
  condition_sh : Option Val
  dialog_sh : Option Val
  post_state_sh : Option Val
  consequence_sh : Option Val

/-- `DialogBuilder()`: the class has no constructor, so a fresh instance has
an empty attribute dictionary and every read falls back to the class. -/
def DialogInstance.new : DialogInstance where
  dialogs_sh := Option.none
  partner_sh := Option.none
  pre_state_sh := Option.none
  pre_state_reply_sh := Option.none
  condition_sh := Option.none
  dialog_sh := Option.none
  post_state_sh := Option.none
  consequence_sh := Option.none

/-- Read `self.dialogs`: the instance shadow when present, else the shared
class list. -/
def DialogInstance.getDialogs (cls : DialogClass) (i : DialogInstance) :
    List Val :=
  i.dialogs_sh.getD cls.dialogs

/-- Read `self.partner_bitwise` (class default `None`, line 24). -/
def DialogInstance.getPartner (i : DialogInstance) : Val :=
  i.partner_sh.getD Val.none

/-- Read `self.pre_state_string` (class default `None`, line 25). -/
def DialogInstance.getPreState (i : DialogInstance) : Val :=
  i.pre_state_sh.getD Val.none

/-- Read `self.condition_tuples` (class default `[]`, line 27). -/
def DialogInstance.getCondition (i : DialogInstance) : Val :=
  i.condition_sh.getD (Val.list [])

/-- Read `self.dialog_string` (class default `""`, line 28). -/
def DialogInstance.getDialogStr (i : DialogInstance) : Val :=
  i.dialog_sh.getD (Val.str "")

/-- Read `self.post_state_string` (class default `None`, line 29). -/
def DialogInstance.getPostState (i : DialogInstance) : Val :=
  i.post_state_sh.getD Val.none

/-- Read `self.consequence_tuples` (class default `[]`, line 30). -/
def DialogInstance.getConsequence (i : DialogInstance) : Val :=
  i.consequence_sh.getD (Val.list [])

/-- `self.dialogs.append(d)`: in-place mutation of the list that the
attribute read resolves to — the instance shadow when present, otherwise the
shared class list. -/
def pushDialog (cls : DialogClass) (i : DialogInstance) (d : Val) :
    DialogClass × DialogInstance :=
  match i.dialogs_sh with
  | some l => (cls, { i with dialogs_sh := some (l ++ [d]) })
  | Option.none => ({ cls with dialogs := cls.dialogs ++ [d] }, i)

/-- `DialogBuilder.append(self, dialog = [])` under the shared-class
semantics: same checks and resets as `DialogBuilder.append`, with field
writes creating instance shadows and the final `self.dialogs.append`
mutating the resolved list. -/
def sharedAppend (cls : DialogClass) (i : DialogInstance) (dialog : Val) :
    Except PyErr (DialogClass × DialogInstance) :=
  if !dialog.isEmptyList && !dialog.isList then
    Except.error (PyErr.valueError "dialog must be a list")
  else if i.getPartner.isNone then
    Except.error (PyErr.valueError "partner must be set")
  else if i.getPreState.isNone then
    Except.error (PyErr.valueError "pre_state must be set")
  else if i.getPostState.isNone then
    Except.error (PyErr.valueError "post_state must be set")
  else if i.getDialogStr.isNone then
    Except.error (PyErr.valueError "dialog must be set")
  else
    let d :=
      if dialog.isEmptyList then
        Val.list [i.getPartner, i.getPreState, i.getCondition,
          i.getDialogStr, i.getPostState, i.getConsequence]
      else dialog
    let i1 := { i with
      partner_sh := some Val.none
      pre_state_sh := some Val.none
      condition_sh := some (Val.list [])
      dialog_sh := some (Val.str "")
      post_state_sh := some Val.none
      consequence_sh := some (Val.list []) }
    Except.ok (pushDialog cls i1 d)

/-- `DialogBuilder.done(self)` under the shared-class semantics: the read of
`self.dialogs` resolves through the shadow, and `self.dialogs = []` creates
an instance shadow, leaving the class list untouched. -/
def sharedDone (cls : DialogClass) (i : DialogInstance) :
    Except PyErr (List Val × DialogClass × DialogInstance) :=
  if (i.getDialogs cls).isEmpty then
    match sharedAppend cls i (Val.list []) with
    | Except.error e => Except.error e
    | Except.ok (cls1, i1) =>
      Except.ok (i1.getDialogs cls1, cls1, { i1 with dialogs_sh := some [] })
  else
    Except.ok (i.getDialogs cls, cls, { i with dialogs_sh := some [] })

/-- `DialogBuilder.partner` under the shared-class semantics: the write
`self.partner_bitwise = ...` creates an instance shadow. -/
def sharedPartner (i : DialogInstance) (p : Val) :
    Except PyErr DialogInstance :=
  match p with
  | Val.list l =>
    match reduceOr l with
    | Except.error e => Except.error e
    | Except.ok m => Except.ok { i with partner_sh := some m }
  | _ => Except.ok { i with partner_sh := some p }

/-- `DialogBuilder.pre_state` under the shared-class semantics. -/
def sharedPreState (i : DialogInstance) (prestate : Val) (on_reply : Bool) :
    DialogInstance :=
  if on_reply then
    { i with pre_state_sh := some prestate, pre_state_reply_sh := some prestate }
  else
    { i with pre_state_sh := some prestate }

/-- `DialogBuilder.dialog` under the shared-class semantics. -/
def sharedDialog (i : DialogInstance) (text : Val) : DialogInstance :=
  { i with dialog_sh := some text }

/-- `DialogBuilder.post_state` under the shared-class semantics. -/
def sharedPostState (i : DialogInstance) (poststate : Val) : DialogInstance :=
  { i with post_state_sh := some poststate }

/-!  The Operator Tuple builder (`OperatorBuilder.py`).  -/

/-- The state of one `OperatorBuilder` object: `self.tuples`, created
per-instance in `__init__` (lines 4-5). -/
structure OperatorBuilder where
  tuples : List Val

/-- `OperatorBuilder.append(self, item)` (lines 7-21): appends the item
verbatim. -/
def OperatorBuilder.append (b : OperatorBuilder) (item : Val) :
    OperatorBuilder :=
  { b with tuples := b.tuples ++ [item] }

/-- The generator expression
`tuple(j for i in operation for j in (i if type(i) is tuple else (i,)))`
used throughout `OperatorBuilder.py`: each element that is a tuple
contributes its elements, every other element contributes itself. -/
def flattenOperation (operation : List Val) : List Val :=
  (operation.map fun i => if i.isTup then
      match i with
      | Val.tup l => l
      | _ => [i]
    else [i]).flatten

/-- `OperatorBuilder.tuple(self, *args)` (lines 24-40): flattens the
argument tuple by one level and appends the result. -/
def OperatorBuilder.tuple (b : OperatorBuilder) (args : List Val) :
    OperatorBuilder :=
  b.append (Val.tup (flattenOperation args))

/-- Modelled from the spec: the `call_script` opcode identifier imported
from the external engine headers (`_headers`, not part of this repository);
its numeric value is external and irrelevant to the theorems below. -/
def call_script_op : Val := Val.str "call_script"

/-- `OperatorBuilder.call_script(self, script, *args)` (lines 61-84): raises
when more than 16 parameters are passed, otherwise appends the one-level
flattening of `(call_script, script, args)`. -/
def OperatorBuilder.call_script (b : OperatorBuilder) (script : Val)
    (args : List Val) : Except PyErr OperatorBuilder :=
  if args.length > 16 then
    Except.error (PyErr.valueError
      "Maximum number of parameters you can pass with the operation is 16.")
  else
    Except.ok (b.append
      (Val.tup (flattenOperation [call_script_op, script, Val.tup args])))

/-- Modelled from the spec: the `set_shader_param_float4x4` opcode
identifier imported from the external engine headers (`_headers`, not part
of this repository). -/
def set_shader_param_float4x4_op : Val := Val.str "set_shader_param_float4x4"

/-- `OperatorBuilder.set_shader_param_float4x4(self, parameter_name, *args)`
(lines 11422-11440): the only other variadic positional-argument wrapper in
`OperatorBuilder.py`; it performs no parameter-count check and appends the
one-level flattening of `(set_shader_param_float4x4, parameter_name, args)`. -/
def OperatorBuilder.set_shader_param_float4x4 (b : OperatorBuilder)
    (parameter_name : Val) (args : List Val) : OperatorBuilder :=
  b.append (Val.tup
    (flattenOperation [set_shader_param_float4x4_op, parameter_name, Val.tup args]))

/-- One-level splicing as described by the spec: each tuple argument's
elements are spliced in place, every non-tuple argument passes through
unchanged; written independently of `flattenOperation` so the two can be
compared. -/
def spliceOneLevel : List Val → List Val
  | [] => []
  | Val.tup l :: rest => l ++ spliceOneLevel rest
  | v :: rest => v :: spliceOneLevel rest

/-!  Concrete call chains used to evaluate the code at specific inputs.  -/

/-- The chain `DialogBuilder().partner(1).pre_state("start").post_state("end")
.append()`: partner, pre-state and post-state are set, the dialog text is
left at its initial value `""`. -/
def chainMissingDialogText : Except PyErr DialogBuilder := do
  let st ← DialogBuilder.init.partner (Val.int 1)
  let st := st.pre_state (Val.str "start") false
  let st := st.post_state (Val.str "end")
  st.append (Val.list [])

/-- The chain `DialogBuilder().partner(1).pre_state("start").dialog("hello")
.post_state("mid").append().replies_start().reply("A")` with `reply`'s
default arguments. -/
def chainReplyAfterAppend : Except PyErr DialogBuilder := do
  let st ← DialogBuilder.init.partner (Val.int 1)
  let st := st.pre_state (Val.str "start") false
  let st := st.dialog (Val.str "hello")
  let st := st.post_state (Val.str "mid")
  let st ← st.append (Val.list [])
  let st ← st.replies_start (Val.str "")
  st.reply (Val.str "A") (Val.str "close_window") true

/-- The chain `DialogBuilder().partner(1).done()`: only the partner is set
when `done` runs. -/
def chainDonePartnerOnly : Except PyErr (List Val × DialogBuilder) := do
  let st ← DialogBuilder.init.partner (Val.int 1)
  st.done

/-- The chain `DialogBuilder().partner(1).pre_state("a").dialog("t")
.post_state("b").done()` followed immediately by a second `done()` on the
same builder. -/
def chainDoneTwice : Except PyErr (List Val × DialogBuilder) := do
  let st ← DialogBuilder.init.partner (Val.int 1)
  let st := st.pre_state (Val.str "a") false
  let st := st.dialog (Val.str "t")
  let st := st.post_state (Val.str "b")
  let p ← st.done
  p.2.done

/-- A builder state whose four required fields are all set. -/
def completeState : DialogBuilder :=
  { DialogBuilder.init with
    partner_bitwise := Val.int 3
    pre_state_string := Val.str "p"
    post_state_string := Val.str "q"
    dialog_string := Val.str "hi" }

/-- `A = DialogBuilder(); A.partner(n).pre_state(pre).dialog(txt)
.post_state(post).append()` executed on a fresh instance under the
shared-class semantics. -/
def sharedScenarioAppend (cls : DialogClass) (n : Int) (pre txt post : String) :
    Except PyErr (DialogClass × DialogInstance) := do
  let a ← sharedPartner DialogInstance.new (Val.int n)
  let a := sharedPreState a (Val.str pre) false
  let a := sharedDialog a (Val.str txt)
  let a := sharedPostState a (Val.str post)
  sharedAppend cls a (Val.list [])

/-!  Helper lemmas.  -/

/-- The generator-expression flattening of the source agrees with the
spec-level one-level splice. -/
theorem flattenOperation_eq_spliceOneLevel (l : List Val) :
    flattenOperation l = spliceOneLevel l := by
  induction l with
  | nil => rfl
  | cons a rest ih =>
    cases a <;>
      simp [flattenOperation, spliceOneLevel, Val.isTup] at ih ⊢ <;>
      exact ih

/-- A list with a final element is never empty. -/
theorem isEmpty_append_singleton (l : List Val) (a : Val) :
    (l ++ [a]).isEmpty = false := by
  cases l <;> rfl

/-- `reduce(or_, ...)` over a non-empty list of Python ints is the left fold
of bitwise or over the tail, seeded with the head. -/
theorem reduceOr_map_int (x : Int) (xs : List Int) :
    reduceOr (Val.int x :: xs.map Val.int) =
      Except.ok (Val.int (xs.foldl Int.lor x)) := by
  induction xs generalizing x with
  | nil => rfl
  | cons y ys ih =>
    simpa [reduceOr, pyOr] using ih (Int.lor x y)

/-!  Claim theorems.  -/

/-- C1: the claim says `append()` fails on each of the four missing required
fields, in particular when only the dialog text is left at its unset
sentinel `""`.  The code contradicts its own docstring there: the check at
line 65 compares `dialog_string` with `None` while the unset sentinel (lines
28 and 74) is `""`, so the chain
`partner(1).pre_state("start").post_state("end").append()` appends an entry
with empty text instead of raising `ValueError("dialog must be set")`. -/
theorem append_missing_dialog_text_not_rejected :
    chainMissingDialogText =
      Except.ok { DialogBuilder.init with
        dialogs := [Val.list [Val.int 1, Val.str "start", Val.list [],
          Val.str "", Val.str "end", Val.list []]] } := rfl

/-- C2: the claim says `reply("A")` after `replies_start()` constructs and
appends a complete entry.  The code raises instead: line 313 of
`DialogBuilder.py` calls `self.talk(text)` and the class defines no `talk`
attribute (the text setter is named `dialog`), so every `reply` call dies
with `AttributeError` before any entry is built. -/
theorem reply_raises_attribute_error :
    chainReplyAfterAppend = Except.error (PyErr.attributeError "talk") := rfl

/-- C3 counterexample: on a fresh builder (all required fields unset),
`append` with the explicit non-empty entry `[7]` raises
`ValueError("partner must be set")` instead of appending it as-is — the
validation checks of lines 56-66 run unconditionally, before the explicit
entry is examined. -/
theorem append_explicit_entry_counterexample :
    DialogBuilder.init.append (Val.list [Val.int 7]) =
      Except.error (PyErr.valueError "partner must be set") := rfl

/-- C3 amended: `append(entry)` with an explicit non-empty list entry still
runs the required-field validation; once partner, pre-state, post-state are
set and the dialog text is not `None`, the explicit entry is appended as-is
and every per-entry field is reset. -/
theorem append_explicit_entry_after_validation (st : DialogBuilder)
    (l : List Val)
    (h1 : st.partner_bitwise.isNone = false)
    (h2 : st.pre_state_string.isNone = false)
    (h3 : st.post_state_string.isNone = false)
    (h4 : st.dialog_string.isNone = false)
    (hl : l.isEmpty = false) :
    st.append (Val.list l) = Except.ok { st with
      partner_bitwise := Val.none
      pre_state_string := Val.none
      condition_tuples := Val.list []
      dialog_string := Val.str ""
      post_state_string := Val.none
      consequence_tuples := Val.list []
      dialogs := st.dialogs ++ [Val.list l] } := by
  simp [DialogBuilder.append, Val.isEmptyList, Val.isList, h1, h2, h3, h4, hl]

/-- C3 witness: the amended theorem applied to a complete builder state and
the explicit entry `[9]`. -/
theorem append_explicit_entry_after_validation_witness :
    completeState.append (Val.list [Val.int 9]) = Except.ok { completeState with
      partner_bitwise := Val.none
      pre_state_string := Val.none
      condition_tuples := Val.list []
      dialog_string := Val.str ""
      post_state_string := Val.none
      consequence_tuples := Val.list []
      dialogs := [Val.list [Val.int 9]] } :=
  append_explicit_entry_after_validation completeState [Val.int 9]
    rfl rfl rfl rfl rfl

/-- C4 counterexample: `done()` on a builder with only the partner set
raises (the implicit `append` fails on the missing pre-state), and a second
`done()` immediately after a successful first one raises
`ValueError("partner must be set")` instead of returning an empty sequence
(the first `done` cleared `dialogs`, so the second re-runs `append` on the
reset fields). -/
theorem done_counterexample :
    chainDonePartnerOnly = Except.error (PyErr.valueError "pre_state must be set")
    ∧ chainDoneTwice = Except.error (PyErr.valueError "partner must be set") :=
  ⟨rfl, rfl⟩

/-- C4 amended: on a builder with no entries appended yet and all four
required fields set, `done()` implicitly finalizes the in-progress entry,
returns the singleton sequence and clears it; but a second `done()` run
immediately afterwards raises `ValueError("partner must be set")` (it
re-invokes the no-argument `append` on the reset builder) rather than
returning an empty sequence. -/
theorem done_implicit_finalize_then_raise (st : DialogBuilder)
    (h0 : st.dialogs = [])
    (h1 : st.partner_bitwise.isNone = false)
    (h2 : st.pre_state_string.isNone = false)
    (h3 : st.post_state_string.isNone = false)
    (h4 : st.dialog_string.isNone = false) :
    st.done = Except.ok
      ([Val.list [st.partner_bitwise, st.pre_state_string, st.condition_tuples,
        st.dialog_string, st.post_state_string, st.consequence_tuples]],
      { st with
        partner_bitwise := Val.none
        pre_state_string := Val.none
        condition_tuples := Val.list []
        dialog_string := Val.str ""
        post_state_string := Val.none
        consequence_tuples := Val.list []
        dialogs := [] })
    ∧ DialogBuilder.done { st with
        partner_bitwise := Val.none
        pre_state_string := Val.none
        condition_tuples := Val.list []
        dialog_string := Val.str ""
        post_state_string := Val.none
        consequence_tuples := Val.list []
        dialogs := [] } =
      Except.error (PyErr.valueError "partner must be set") := by
  constructor
  · simp [DialogBuilder.done, DialogBuilder.append, Val.isEmptyList, Val.isList,
      h0, h1, h2, h3, h4]
  · simp [DialogBuilder.done, DialogBuilder.append, Val.isEmptyList, Val.isList,
      Val.isNone]

/-- C4 witness: the amended theorem applied to a complete builder state. -/
theorem done_implicit_finalize_then_raise_witness :
    completeState.done = Except.ok
      ([Val.list [Val.int 3, Val.str "p", Val.list [], Val.str "hi",
        Val.str "q", Val.list []]],
      { completeState with
        partner_bitwise := Val.none
        pre_state_string := Val.none
        condition_tuples := Val.list []
        dialog_string := Val.str ""
        post_state_string := Val.none
        consequence_tuples := Val.list []
        dialogs := [] })
    ∧ DialogBuilder.done { completeState with
        partner_bitwise := Val.none
        pre_state_string := Val.none
        condition_tuples := Val.list []
        dialog_string := Val.str ""
        post_state_string := Val.none
        consequence_tuples := Val.list []
        dialogs := [] } =
      Except.error (PyErr.valueError "partner must be set") :=
  done_implicit_finalize_then_raise completeState rfl rfl rfl rfl rfl

/-- C5: on a complete chain (partner, pre-state, post-state set and the
dialog text not `None`), the no-argument `append` emits the 6-component
entry `(speaker, pre_state, conditions, text, post_state, consequences)`
exactly as last set and resets every per-entry field to its unset value. -/
theorem append_complete_chain (st : DialogBuilder)
    (h1 : st.partner_bitwise.isNone = false)
    (h2 : st.pre_state_string.isNone = false)
    (h3 : st.post_state_string.isNone = false)
    (h4 : st.dialog_string.isNone = false) :
    st.append (Val.list []) = Except.ok { st with
      partner_bitwise := Val.none
      pre_state_string := Val.none
      condition_tuples := Val.list []
      dialog_string := Val.str ""
      post_state_string := Val.none
      consequence_tuples := Val.list []
      dialogs := st.dialogs ++
        [Val.list [st.partner_bitwise, st.pre_state_string, st.condition_tuples,
          st.dialog_string, st.post_state_string, st.consequence_tuples]] } := by
  simp [DialogBuilder.append, Val.isEmptyList, Val.isList, h1, h2, h3, h4]

/-- C5 witness: the theorem applied to a complete builder state. -/
theorem append_complete_chain_witness :
    completeState.append (Val.list []) = Except.ok { completeState with
      partner_bitwise := Val.none
      pre_state_string := Val.none
      condition_tuples := Val.list []
      dialog_string := Val.str ""
      post_state_string := Val.none
      consequence_tuples := Val.list []
      dialogs := [Val.list [Val.int 3, Val.str "p", Val.list [], Val.str "hi",
        Val.str "q", Val.list []]] } :=
  append_complete_chain completeState rfl rfl rfl rfl

/-- C6: `OperatorBuilder.tuple(*args)` appends the single flat tuple
obtained by one-level splicing: each tuple argument's elements are spliced
in place and every non-tuple argument passes through unchanged; for example
`tuple(a, (b, c), d)` appends `(a, b, c, d)`, and a tuple nested two levels
deep is spliced only at the outer level. -/
theorem tuple_one_level_flatten :
    (∀ (b : OperatorBuilder) (args : List Val),
      (b.tuple args).tuples = b.tuples ++ [Val.tup (spliceOneLevel args)]) ∧
    (∀ (b : OperatorBuilder) (x y z w : Int),
      (b.tuple [Val.int x, Val.tup [Val.int y, Val.int z], Val.int w]).tuples =
        b.tuples ++ [Val.tup [Val.int x, Val.int y, Val.int z, Val.int w]]) ∧
    (∀ (b : OperatorBuilder) (l : List Val),
      (b.tuple [Val.tup [Val.tup l]]).tuples =
        b.tuples ++ [Val.tup [Val.tup l]]) := by
  refine ⟨?_, ?_, ?_⟩ <;> intros <;>
    simp [OperatorBuilder.tuple, OperatorBuilder.append,
      flattenOperation_eq_spliceOneLevel, spliceOneLevel]

/-- C7: `call_script` succeeds and appends one flat tuple for at most 16
parameters after the script name and raises the parameter-count error for 17
or more; the only other variadic positional-argument wrapper,
`set_shader_param_float4x4`, enforces no ceiling (and the `raise` at line 79
is the only one in `OperatorBuilder.py`). -/
theorem call_script_param_ceiling :
    (∀ (b : OperatorBuilder) (script : Val) (args : List Val),
      args.length ≤ 16 →
      b.call_script script args = Except.ok { b with tuples := b.tuples ++
        [Val.tup (spliceOneLevel [call_script_op, script, Val.tup args])] }) ∧
    (∀ (b : OperatorBuilder) (script : Val) (args : List Val),
      17 ≤ args.length →
      b.call_script script args = Except.error (PyErr.valueError
        "Maximum number of parameters you can pass with the operation is 16.")) ∧
    (∀ (b : OperatorBuilder) (pname : Val) (args : List Val),
      b.set_shader_param_float4x4 pname args = { b with tuples := b.tuples ++
        [Val.tup (spliceOneLevel
          [set_shader_param_float4x4_op, pname, Val.tup args])] }) := by
  refine ⟨?_, ?_, ?_⟩
  · intro b script args h
    simp [OperatorBuilder.call_script, OperatorBuilder.append,
      flattenOperation_eq_spliceOneLevel, Nat.not_lt.mpr h]
  · intro b script args h
    simp [OperatorBuilder.call_script, show 16 < args.length by omega]
  · intro b pname args
    simp [OperatorBuilder.set_shader_param_float4x4, OperatorBuilder.append,
      flattenOperation_eq_spliceOneLevel]

/-- C7 witness: `call_script` with 16 parameters succeeds, with 17 it raises
the parameter-count error. -/
theorem call_script_param_ceiling_witness :
    (OperatorBuilder.mk []).call_script (Val.str "name")
        (List.replicate 16 (Val.int 0)) =
      Except.ok { tuples := [Val.tup (spliceOneLevel [call_script_op,
        Val.str "name", Val.tup (List.replicate 16 (Val.int 0))])] } ∧
    (OperatorBuilder.mk []).call_script (Val.str "name")
        (List.replicate 17 (Val.int 0)) =
      Except.error (PyErr.valueError
        "Maximum number of parameters you can pass with the operation is 16.") :=
  ⟨call_script_param_ceiling.1 (OperatorBuilder.mk []) (Val.str "name")
      (List.replicate 16 (Val.int 0)) (by simp),
   call_script_param_ceiling.2.1 (OperatorBuilder.mk []) (Val.str "name")
      (List.replicate 17 (Val.int 0)) (by simp)⟩

/-- C8: `partner` on a non-empty list of int identifiers stores the bitwise
or of all its elements — the same value `partner` stores when handed that
single combined identifier directly. -/
theorem partner_list_bitwise_or (st : DialogBuilder) (x : Int)
    (xs : List Int) :
    st.partner (Val.list (Val.int x :: xs.map Val.int)) =
      Except.ok { st with partner_bitwise := Val.int (xs.foldl Int.lor x) } ∧
    st.partner (Val.int (xs.foldl Int.lor x)) =
      Except.ok { st with partner_bitwise := Val.int (xs.foldl Int.lor x) } := by
  constructor
  · simp [DialogBuilder.partner, reduceOr_map_int]
  · rfl

/-- C9: the class-scope `dialogs` list is shared: an entry appended through
one fresh instance lands in the class list, and `done()` on a different,
separately constructed fresh instance returns that list (constructing the
new instance does not reset the accumulated sequence). -/
theorem shared_class_state_cross_instance (cls : DialogClass) (n : Int)
    (pre txt post : String) :
    sharedScenarioAppend cls n pre txt post = Except.ok
      ({ dialogs := cls.dialogs ++ [Val.list [Val.int n, Val.str pre,
          Val.list [], Val.str txt, Val.str post, Val.list []]] },
        { DialogInstance.new with
          partner_sh := some Val.none
          pre_state_sh := some Val.none
          condition_sh := some (Val.list [])
          dialog_sh := some (Val.str "")
          post_state_sh := some Val.none
          consequence_sh := some (Val.list []) }) ∧
    sharedDone { dialogs := cls.dialogs ++ [Val.list [Val.int n, Val.str pre,
        Val.list [], Val.str txt, Val.str post, Val.list []]] }
      DialogInstance.new = Except.ok
      (cls.dialogs ++ [Val.list [Val.int n, Val.str pre, Val.list [],
        Val.str txt, Val.str post, Val.list []]],
      { dialogs := cls.dialogs ++ [Val.list [Val.int n, Val.str pre,
        Val.list [], Val.str txt, Val.str post, Val.list []]] },
      { DialogInstance.new with dialogs_sh := some [] }) := by
  constructor
  · rfl
  · simp [sharedDone, DialogInstance.getDialogs, DialogInstance.new,
      Option.getD, isEmpty_append_singleton]

/-- C10: `replies_start` with its default empty pre-state on a builder whose
accumulated dialog list is empty fails with an out-of-range index access
when it reads `self.dialogs[-1][4]`. -/
theorem replies_start_empty_dialogs_index_error (st : DialogBuilder)
    (h : st.dialogs = []) :
    st.replies_start (Val.str "") = Except.error PyErr.indexError := by
  have he : (Val.str "").isEmptyStr = true := rfl
  simp [DialogBuilder.replies_start, DialogBuilder.pre_state, he, h]

/-- C10 witness: a fresh builder has an empty dialog list, so
`replies_start("")` raises. -/
theorem replies_start_empty_dialogs_index_error_witness :
    DialogBuilder.init.replies_start (Val.str "") =
      Except.error PyErr.indexError :=
  replies_start_empty_dialogs_index_error DialogBuilder.init rfl
